import Mathlib

/-!
Verification development for the ComfyUI Inkscape extension
(src/comfyui_extension.py). The Python source is embedded shallowly:
JSON workflow graphs become functions from string node ids to nodes,
dictionary mutation becomes functional update, fallible operations
return Except values, and the random number generator is passed in as
an explicit draw. Machine reals (Python floats) that only ever hold
exact halves and small products are modelled with rationals.
-/

namespace ComfyUI

/-- Shallow model of a JSON value as stored in a workflow node input
field: prompt strings, numeric sampler parameters, booleans and null.
Node reference pairs are not needed by any claim and are omitted from
the constructors actually exercised. -/
inductive JVal where
  | str : String → JVal
  | num : ℚ → JVal
  | boolean : Bool → JVal
  | null : JVal
  deriving DecidableEq

/-- One workflow node: the class_type tag and the inputs dictionary,
modelled as a partial map from field name to value. Mirrors the JSON
shape used throughout comfyui_extension.py. -/
structure Node where
  class_type : String
  inputs : String → Option JVal

/-- A workflow graph is the top level JSON object: a partial map from
string node id to node, mirroring workflow_json in the source. -/
abbrev Graph := String → Option Node

/-- Python exceptions that the modelled code can raise. -/
inductive PyErr where
  | keyError : String → PyErr
  | valueError : String → PyErr
  deriving DecidableEq

/-- Dictionary assignment d[k] = v on a node inputs map. -/
def setField (inputs : String → Option JVal) (k : String) (v : JVal) :
    String → Option JVal :=
  fun key => if key = k then some v else inputs key

/-- Sequence of dictionary assignments workflow_json[nid][field] = v
(equally, dict.update with those pairs, applied left to right). Raises
KeyError when the node id is absent, exactly as the Python subscript
workflow_json[nid] does. -/
def setNodeFields (g : Graph) (nid : String) (fields : List (String × JVal)) :
    Except PyErr Graph :=
  match g nid with
  | none => Except.error (PyErr.keyError nid)
  | some node =>
      Except.ok (fun key =>
        if key = nid then
          some { node with
                 inputs := fields.foldl (fun m kv => setField m kv.1 kv.2) node.inputs }
        else g key)

/-- Value of field k of node nid in graph g, or none when either is
absent. -/
def graphField (g : Graph) (nid k : String) : Option JVal :=
  (g nid).bind fun n => n.inputs k

/-- Same as graphField but read through an Except result. -/
def nodeField (r : Except PyErr Graph) (nid k : String) : Option JVal :=
  match r with
  | Except.error _ => none
  | Except.ok g => graphField g nid k

/-- Models Python random.randint(a, b): an integer N with a ≤ N ≤ b,
both endpoints included (per the Python library contract), expressed
as a function of the raw generator draw r. For a ≤ b it is surjective
onto the closed interval, so it ranges over exactly the values the
library call can return. -/
def randint (a b : ℤ) (r : ℕ) : ℤ :=
  a + (r : ℤ) % (b - a + 1)

/-- Seed expression from populate_workflow line 712:
seed if seed > 0 else random.randint(0, 1000000000). -/
def sampledSeed (seed : ℤ) (r : ℕ) : ℤ :=
  if seed > 0 then seed else randint 0 1000000000 r

/-- Option values consumed by populate_workflow. The six id fields are
the values that get_workflow_option resolves for the selected workflow
variant (for example img2img_ksampler_id when workflow_select is
img2img); all are declared with type=int in add_arguments. -/
structure PopulateOpts where
  workflow_select : String
  positive_id : ℤ
  negative_id : ℤ
  ksampler_id : ℤ
  image_input_id : ℤ
  mask_input_id : ℤ
  pose_input_id : ℤ
  positive_prompt : String
  negative_prompt : String
  cfg_scale : ℚ
  denoise : ℚ
  steps : ℤ
  seed : ℤ

/-- Propagation of a raised exception: run the continuation on the
value of a successful computation, pass an exception through. This is
how sequential Python statements chain in the embedding. -/
def exceptThen (r : Except PyErr Graph) (f : Graph → Except PyErr Graph) :
    Except PyErr Graph :=
  match r with
  | Except.error e => Except.error e
  | Except.ok g => f g

/-- Guarded image input mutation of populate_workflow (source lines
716 to 723): skipped unless the configured id is positive and present
in the graph. str(id) in the source is toString, and int(str(id))
equals id, so the guard int(image_input_id) > 0 is written on the
integer directly. -/
def image_input_stage (opts : PopulateOpts) (uploadedImage : String)
    (g3 : Graph) : Except PyErr Graph :=
  if 0 < opts.image_input_id ∧
      (g3 (toString opts.image_input_id)).isSome = true then
    setNodeFields g3 (toString opts.image_input_id)
      [("image", JVal.str uploadedImage)]
  else Except.ok g3

/-- Guarded mask input mutation of populate_workflow (source lines 725
to 732): only for the masked variant, with the same guard shape. -/
def mask_input_stage (opts : PopulateOpts) (uploadedMask : String)
    (g4 : Graph) : Except PyErr Graph :=
  if opts.workflow_select = "masked" then
    (if 0 < opts.mask_input_id ∧
        (g4 (toString opts.mask_input_id)).isSome = true then
      setNodeFields g4 (toString opts.mask_input_id)
        [("image", JVal.str uploadedMask)]
    else Except.ok g4)
  else Except.ok g4

/-- Guarded pose input mutation of populate_workflow (source lines 734
to 741): only for the pose variant, with the same guard shape. -/
def pose_input_stage (opts : PopulateOpts) (uploadedPose : String)
    (g5 : Graph) : Except PyErr Graph :=
  if opts.workflow_select = "pose" then
    (if 0 < opts.pose_input_id ∧
        (g5 (toString opts.pose_input_id)).isSome = true then
      setNodeFields g5 (toString opts.pose_input_id)
        [("image", JVal.str uploadedPose)]
    else Except.ok g5)
  else Except.ok g5

/-- Models the guarded image, mask and pose input block of
populate_workflow (source lines 715 to 741): the whole block runs only
when the selected variant takes an image input. The uploaded server
paths are passed in explicitly because comfy.load_image performs
network IO. -/
def populate_input_images (opts : PopulateOpts)
    (uploadedImage uploadedMask uploadedPose : String) (g3 : Graph) :
    Except PyErr Graph :=
  if opts.workflow_select ∈
      ["img2img", "masked", "pose", "custom1", "custom2", "custom3", "custom4"] then
    exceptThen (image_input_stage opts uploadedImage g3) (fun g4 =>
      exceptThen (mask_input_stage opts uploadedMask g4) (fun g5 =>
        pose_input_stage opts uploadedPose g5))
  else Except.ok g3

/-- Models ComfyUIExtension.populate_workflow (source lines 679 to
743). The positive and negative prompt nodes and the sampler node are
mutated unconditionally through the raw subscript
workflow_json[str(id)], which raises KeyError when the id string is
not a key of the graph; only the image, mask and pose input slots are
behind the existence and positivity guard. randDraw is the raw
generator draw consumed by random.randint when seed is not positive. -/
def populate_workflow (opts : PopulateOpts) (randDraw : ℕ)
    (uploadedImage uploadedMask uploadedPose : String)
    (workflow_json : Graph) : Except PyErr Graph :=
  exceptThen (setNodeFields workflow_json (toString opts.positive_id)
      [("text", JVal.str opts.positive_prompt),
       ("text_l", JVal.str opts.positive_prompt),
       ("text_g", JVal.str opts.positive_prompt)]) (fun g1 =>
    exceptThen (setNodeFields g1 (toString opts.negative_id)
        [("text", JVal.str opts.negative_prompt),
         ("text_l", JVal.str opts.negative_prompt),
         ("text_g", JVal.str opts.negative_prompt)]) (fun g2 =>
      exceptThen (setNodeFields g2 (toString opts.ksampler_id)
          [("cfg", JVal.num opts.cfg_scale),
           ("denoise", JVal.num opts.denoise),
           ("steps", JVal.num (opts.steps : ℚ)),
           ("seed", JVal.num ((sampledSeed opts.seed randDraw : ℤ) : ℚ))]) (fun g3 =>
        populate_input_images opts uploadedImage uploadedMask uploadedPose g3)))

/-- Geometry state stored on the extension by process_image when
main_input_image is True: self.longest_side, self.exported_width and
self.exported_height (source lines 615 to 622). -/
structure CanvasGeom where
  longest_side : ℕ
  exported_width : ℕ
  exported_height : ℕ
  deriving DecidableEq

/-- Models process_image with main_input_image=True recording the
canvas geometry: longest_side = max(width, height) and the exported
size is the source size (source lines 615 to 622). -/
def process_image_main (width height : ℕ) : CanvasGeom :=
  { longest_side := max width height
    exported_width := width
    exported_height := height }

/-- Size of the square canvas created by process_image (source line
630): (self.longest_side, self.longest_side). -/
def padded_size (geom : CanvasGeom) : ℕ × ℕ :=
  (geom.longest_side, geom.longest_side)

/-- Paste position of the source image inside the square canvas
(source lines 631 to 646): offsets (longest_side - size) / 2 computed
in float arithmetic and truncated with int(). The operands are exact
halves, so rational arithmetic with floor reproduces the float
computation; truncation equals floor because the offsets are
nonnegative. -/
def paste_offset (geom : CanvasGeom) : ℤ × ℤ :=
  (⌊((geom.longest_side : ℚ) - (geom.exported_width : ℚ)) / 2⌋,
   ⌊((geom.longest_side : ℚ) - (geom.exported_height : ℚ)) / 2⌋)

/-- Crop rectangle computed by _process_result_image in the branch
with image_input_id > 0 (source lines 1066 to 1083): result_ratio =
result width / longest_side, offsets (longest_side - exported size)/2,
rectangle corners truncated with int(); all quantities nonnegative so
int() is floor. -/
def crop_rect (geom : CanvasGeom) (result_width : ℕ) : ℤ × ℤ × ℤ × ℤ :=
  let result_ratio : ℚ := (result_width : ℚ) / (geom.longest_side : ℚ)
  let offset_x : ℚ := ((geom.longest_side : ℚ) - (geom.exported_width : ℚ)) / 2
  let offset_y : ℚ := ((geom.longest_side : ℚ) - (geom.exported_height : ℚ)) / 2
  (⌊offset_x * result_ratio⌋,
   ⌊offset_y * result_ratio⌋,
   ⌊((geom.longest_side : ℚ) - offset_x) * result_ratio⌋,
   ⌊((geom.longest_side : ℚ) - offset_y) * result_ratio⌋)

/-- Pixel size of the image produced by PIL Image.crop on a rectangle
(left, top, right, bottom): (right - left, bottom - top). -/
def cropped_size (rect : ℤ × ℤ × ℤ × ℤ) : ℤ × ℤ :=
  (rect.2.2.1 - rect.1, rect.2.2.2 - rect.2.1)

deriving instance DecidableEq for Except

/-- Trace of one retry_request run: the outcome (ok some response on
success, error on the TimeoutError raise, ok none when the loop body
never runs because max_retries is zero), the sleep durations performed
in order, and the number of attempts made. -/
structure RetryTrace where
  result : Except String (Option String)
  sleeps : List ℚ
  attempts : ℕ
  deriving DecidableEq

/-- Loop body of retry_request (source lines 49 to 62). attemptResult
gives the outcome of the attempt with the given index (some response
on success, none on URLError). remaining counts the loop iterations
still available including the current one, so the source condition
attempt < max_retries - 1 is remaining > 0 after the pattern match
peels the current iteration; the sleep before the next attempt lasts
backoff_factor * 2 ** attempt seconds. -/
def retry_go (attemptResult : ℕ → Option String) (backoff_factor : ℚ) :
    ℕ → ℕ → List ℚ → ℕ → RetryTrace
  | 0, _, sleeps, tried => ⟨Except.ok none, sleeps, tried⟩
  | remaining + 1, attempt, sleeps, tried =>
    match attemptResult attempt with
    | some resp => ⟨Except.ok (some resp), sleeps, tried + 1⟩
    | none =>
      if 0 < remaining then
        retry_go attemptResult backoff_factor remaining (attempt + 1)
          (sleeps ++ [backoff_factor * 2 ^ attempt]) (tried + 1)
      else ⟨Except.error "TimeoutError", sleeps, tried + 1⟩

/-- Models retry_request (source lines 35 to 64) at its default
parameters max_retries=5 and backoff_factor=0.5, as used by
get_history. -/
def retry_request (attemptResult : ℕ → Option String) : RetryTrace :=
  retry_go attemptResult (1 / 2) 5 0 [] 0

/-- Poll loop of generate_result_image (source lines 1010 to 1014):
one get_history call before the loop, then further calls while the
prompt id is not a key of the latest response. source n reports
whether call number n (counting from 0) returns a record containing
the prompt id. calls is the number of calls made so far, so the call
being tested is calls - 1; fuel bounds the number of loop steps
examined and the result is the total call count on termination. -/
def poll_loop (source : ℕ → Bool) : ℕ → ℕ → Option ℕ
  | 0, _ => none
  | fuel + 1, calls =>
    if source (calls - 1) then some calls
    else poll_loop source fuel (calls + 1)

/-- Number of get_history calls performed by the poll section of
generate_result_image: the initial call plus the loop of poll_loop. -/
def generate_poll_calls (source : ℕ → Bool) (fuel : ℕ) : Option ℕ :=
  poll_loop source fuel 1

/-- History source of claim C8: the record lacks the handle key on
calls 0 and 1 and contains it from call 2 on. -/
def c8_source : ℕ → Bool :=
  fun n => decide (2 ≤ n)

/-- Placement computation of insert_result_image (source lines 1046 to
1048): gap = 1.0 + gap_option/100.0 and the base position is offset by
(dimensions.width * (index % columns) * gap,
dimensions.height * int(index / columns) * gap). Python int() of the
nonnegative float quotient is the rational floor. -/
def insert_position (position : ℚ × ℚ) (dimensions : ℚ × ℚ)
    (index : ℕ) (columns : ℕ) (gap_option : ℚ) : ℚ × ℚ :=
  let gap : ℚ := 1 + gap_option / 100
  (position.1 + dimensions.1 * ((index % columns : ℕ) : ℚ) * gap,
   position.2 + dimensions.2 * ((⌊(index : ℚ) / (columns : ℚ)⌋ : ℤ) : ℚ) * gap)

/-- Server response to the multipart upload as seen by upload_file:
the HTTP status code and the optional name and subfolder fields of the
decoded JSON body. -/
structure UploadResp where
  status_code : ℕ
  name : Option String
  subfolder : Option String
  deriving DecidableEq

/-- Models ComfyUIWebSocketAPI.upload_file (source lines 151 to 199).
resp.raise_for_status() raises for status codes at least 400; on a 200
response a missing name field raises ValueError, otherwise the
returned path is subfolder/name when the subfolder field is present
and nonempty and name alone otherwise; any other status leaves path
as None. -/
def upload_file (resp : UploadResp) : Except PyErr (Option String) :=
  if 400 ≤ resp.status_code then
    Except.error (PyErr.valueError "HTTPError")
  else if resp.status_code = 200 then
    match resp.name with
    | none => Except.error (PyErr.valueError "Server response is missing the file name.")
    | some n =>
      match resp.subfolder with
      | some sf => if sf ≠ "" then Except.ok (some (sf ++ "/" ++ n)) else Except.ok (some n)
      | none => Except.ok (some n)
  else Except.ok none

/-- JSON body built by ComfyUIExtension.queue_prompt (source line
974): prompt_json = a dictionary with the single key prompt. This is
the method invoked by generate_result_image. -/
def extension_queue_prompt_body (prompt : JVal) : List (String × JVal) :=
  [("prompt", prompt)]

/-- JSON body built by ComfyUIWebSocketAPI.queue_prompt (source line
112): prompt and the session client_id generated once per
ComfyUIWebSocketAPI instance. This method is not on the orchestrator
path of generate_result_image. -/
def api_queue_prompt_body (prompt : JVal) (client_id : String) :
    List (String × JVal) :=
  [("prompt", prompt), ("client_id", JVal.str client_id)]

/-- Body submitted by the orchestrator: generate_result_image (source
line 1003) calls self.queue_prompt, the ComfyUIExtension method. -/
def orchestrator_submission_body (workflow_json : JVal) : List (String × JVal) :=
  extension_queue_prompt_body workflow_json

/-- Argument destinations defined by add_arguments (source lines 407
to 488), in declaration order. An attribute access on self.options
succeeds exactly for these names. -/
def definedOptionNames : List String :=
  ["tab", "ids_tab", "workflow_select", "positive_prompt", "negative_prompt",
   "cfg_scale", "denoise", "seed", "steps", "batch",
   "basic_positive_id", "basic_negative_id", "basic_ksampler_id",
   "img2img_positive_id", "img2img_negative_id", "img2img_image_input_id",
   "img2img_ksampler_id",
   "masked_positive_id", "masked_negative_id", "masked_image_input_id",
   "masked_mask_input_id", "masked_ksampler_id",
   "pose_positive_id", "pose_negative_id", "pose_image_input_id",
   "pose_input_id", "pose_ksampler_id",
   "custom1_positive_id", "custom1_negative_id", "custom1_image_input_id",
   "custom1_ksampler_id",
   "custom2_positive_id", "custom2_negative_id", "custom2_image_input_id",
   "custom2_ksampler_id",
   "custom3_positive_id", "custom3_negative_id", "custom3_image_input_id",
   "custom3_ksampler_id",
   "custom4_positive_id", "custom4_negative_id", "custom4_image_input_id",
   "custom4_ksampler_id",
   "basic_workflow_json_path", "img2img_workflow_json_path",
   "masked_workflow_json_path", "pose_workflow_json_path",
   "custom1_workflow_json_path", "custom2_workflow_json_path",
   "custom3_workflow_json_path", "custom4_workflow_json_path",
   "api_url", "columns", "gap"]

/-- Plain attribute access self.options.attr: the configured value
when the destination exists, AttributeError otherwise. vals gives the
configured value of each defined option (none models a string option
left at its argparse default of None). -/
def getattr_required (vals : String → Option String) (attr : String) :
    Except String (Option String) :=
  if attr ∈ definedOptionNames then Except.ok (vals attr)
  else Except.error ("AttributeError: " ++ attr)

/-- Embedded workflow JSON strings stored as class attributes of
ComfyUIExtension (source lines 254 to 322). Their multi-kilobyte
content is irrelevant to every claim, so they are abstracted as an
arbitrary assignment; pose_workflow_json_path is the literal None
(source line 323) and is modelled where it is used. -/
structure ClassAttrs where
  basic_workflow_json_path : String
  img2img_workflow_json_path : String
  masked_workflow_json_path : String

/-- Models ComfyUIExtension.get_workflow_path (source lines 894 to
928): selects the per-variant workflow_json_path option, reading the
misspelled attribute custom_workflow_json_path for the custom2
variant. workflow_select is none when the option was never supplied. -/
def get_workflow_path (workflow_select : Option String)
    (vals : String → Option String) : Except String (Option String) :=
  if workflow_select = some "basic" ∨ workflow_select = none then
    getattr_required vals "basic_workflow_json_path"
  else if workflow_select = some "img2img" then
    getattr_required vals "img2img_workflow_json_path"
  else if workflow_select = some "masked" then
    getattr_required vals "masked_workflow_json_path"
  else if workflow_select = some "pose" then
    getattr_required vals "pose_workflow_json_path"
  else if workflow_select = some "custom1" then
    getattr_required vals "custom1_workflow_json_path"
  else if workflow_select = some "custom2" then
    getattr_required vals "custom_workflow_json_path"
  else if workflow_select = some "custom3" then
    getattr_required vals "custom3_workflow_json_path"
  else if workflow_select = some "custom4" then
    getattr_required vals "custom4_workflow_json_path"
  else Except.ok none

/-- Models ComfyUIExtension.get_embedded_workflow (source lines 858 to
892): the non custom variants return class attributes (pose is the
literal None), the custom variants read options, and custom2 reads the
misspelled attribute custom_workflow_json_path. -/
def get_embedded_workflow (attrs : ClassAttrs) (workflow_select : Option String)
    (vals : String → Option String) : Except String (Option String) :=
  if workflow_select = some "basic" ∨ workflow_select = none then
    Except.ok (some attrs.basic_workflow_json_path)
  else if workflow_select = some "img2img" then
    Except.ok (some attrs.img2img_workflow_json_path)
  else if workflow_select = some "masked" then
    Except.ok (some attrs.masked_workflow_json_path)
  else if workflow_select = some "pose" then
    Except.ok none
  else if workflow_select = some "custom1" then
    getattr_required vals "custom1_workflow_json_path"
  else if workflow_select = some "custom2" then
    getattr_required vals "custom_workflow_json_path"
  else if workflow_select = some "custom3" then
    getattr_required vals "custom3_workflow_json_path"
  else if workflow_select = some "custom4" then
    getattr_required vals "custom4_workflow_json_path"
  else Except.ok none

/-- Whether an Except result is a success. -/
def isOkb (r : Except PyErr Graph) : Bool :=
  match r with
  | Except.ok _ => true
  | Except.error _ => false

/-- Node at nid read through an Except result. -/
def resNode (r : Except PyErr Graph) (nid : String) : Option Node :=
  match r with
  | Except.ok g => g nid
  | Except.error _ => none

/-- Inputs map with no fields, for test graphs. -/
def emptyInputs : String → Option JVal := fun _ => none

/-- Test node used by several concrete graphs. -/
def plainNode : Node :=
  { class_type := "X", inputs := emptyInputs }

/-- Graph for claim C1 whose only node has the string key zero. -/
def zeroKeyGraph : Graph :=
  fun nid => if nid = "0" then some plainNode else none

/-- Options for claim C1: every slot id is configured to the sentinel
value 0 while the graph contains a node with string key zero. -/
def c1opts : PopulateOpts :=
  { workflow_select := "basic", positive_id := 0, negative_id := 0
    ksampler_id := 0, image_input_id := 0, mask_input_id := 0, pose_input_id := 0
    positive_prompt := "POS", negative_prompt := "NEG"
    cfg_scale := 7, denoise := 3 / 4, steps := 20, seed := 42 }

/-- Masked variant graph for the C1 witness: the three unguarded slots
resolve to nodes 16, 19 and 36 and a node with key zero is present. -/
def maskedGraph : Graph :=
  fun nid => if nid = "16" ∨ nid = "19" ∨ nid = "36" ∨ nid = "0" then some plainNode else none

/-- Options for the C1 witness: masked variant with all optional input
slot ids at the sentinel 0. -/
def w1opts : PopulateOpts :=
  { workflow_select := "masked", positive_id := 16, negative_id := 19
    ksampler_id := 36, image_input_id := 0, mask_input_id := 0, pose_input_id := 0
    positive_prompt := "p", negative_prompt := "n"
    cfg_scale := 7, denoise := 1, steps := 20, seed := 1 }

/-- Graph for the C3 seed claims: prompts on nodes 16 and 19 and the
sampler on node 3. -/
def seedGraph : Graph :=
  fun nid => if nid = "16" ∨ nid = "19" ∨ nid = "3" then some plainNode else none

/-- Options for the C3 counterexample: caller seed 0, so the random
draw is substituted. -/
def c3opts : PopulateOpts :=
  { workflow_select := "basic", positive_id := 16, negative_id := 19
    ksampler_id := 3, image_input_id := 0, mask_input_id := 0, pose_input_id := 0
    positive_prompt := "p", negative_prompt := "n"
    cfg_scale := 7, denoise := 1, steps := 20, seed := 0 }

/-- Options for the C3 witness: caller seed 42 is kept verbatim. -/
def c3wopts : PopulateOpts :=
  { workflow_select := "basic", positive_id := 16, negative_id := 19
    ksampler_id := 3, image_input_id := 0, mask_input_id := 0, pose_input_id := 0
    positive_prompt := "p", negative_prompt := "n"
    cfg_scale := 7, denoise := 1, steps := 20, seed := 42 }

/-- Sampler inputs with a pre-existing unrelated field and a
pre-existing cfg value, for the C7 witness. -/
def samplerBase : String → Option JVal :=
  fun k =>
    if k = "sampler_name" then some (JVal.str "dpmpp_2m")
    else if k = "cfg" then some (JVal.num 8)
    else none

/-- Sampler node for the C7 witness. -/
def samplerNode : Node :=
  { class_type := "KSampler", inputs := samplerBase }

/-- Graph for the C7 witness. -/
def samplerGraph : Graph :=
  fun nid =>
    if nid = "3" then some samplerNode
    else if nid = "16" ∨ nid = "19" then some plainNode
    else none

/-- Options for the C7 witness: distinct slot ids. -/
def c7opts : PopulateOpts :=
  { workflow_select := "basic", positive_id := 16, negative_id := 19
    ksampler_id := 3, image_input_id := 0, mask_input_id := 0, pose_input_id := 0
    positive_prompt := "p", negative_prompt := "n"
    cfg_scale := 13 / 2, denoise := 3 / 4, steps := 25, seed := 42 }

end ComfyUI

namespace ComfyUI

theorem setNodeFields_inv {g : Graph} {nid : String} {fields : List (String × JVal)}
    {g2 : Graph} (h : setNodeFields g nid fields = Except.ok g2) :
    ∃ node, g nid = some node ∧
      g2 = fun key =>
        if key = nid then
          some { node with
                 inputs := fields.foldl (fun m kv => setField m kv.1 kv.2) node.inputs }
        else g key := by
  unfold setNodeFields at h
  cases hg : g nid with
  | none => rw [hg] at h; cases h
  | some node =>
      rw [hg] at h
      refine ⟨node, rfl, ?_⟩
      cases h
      rfl

theorem setNodeFields_ne {g : Graph} {nid : String} {fields : List (String × JVal)}
    {g2 : Graph} (h : setNodeFields g nid fields = Except.ok g2)
    {m : String} (hm : m ≠ nid) : g2 m = g m := by
  obtain ⟨node, _, rfl⟩ := setNodeFields_inv h
  simp [hm]

theorem setNodeFields_isSome {g : Graph} {nid : String} {fields : List (String × JVal)}
    {g2 : Graph} (h : setNodeFields g nid fields = Except.ok g2) (m : String) :
    (g2 m).isSome = (g m).isSome := by
  obtain ⟨node, hnode, rfl⟩ := setNodeFields_inv h
  by_cases hm : m = nid
  · subst hm; simp [hnode]
  · simp [hm]

theorem setNodeFields_self_field {g : Graph} {nid : String}
    {fields : List (String × JVal)} {g2 : Graph} {node : Node}
    (h : setNodeFields g nid fields = Except.ok g2) (hnode : g nid = some node)
    (k : String) :
    graphField g2 nid k
      = (fields.foldl (fun m kv => setField m kv.1 kv.2) node.inputs) k := by
  obtain ⟨node2, hnode2, rfl⟩ := setNodeFields_inv h
  rw [hnode] at hnode2
  injection hnode2 with hn2
  subst hn2
  simp [graphField]

theorem setNodeFields_ok_of_isSome (g : Graph) (nid : String)
    (fields : List (String × JVal)) (h : (g nid).isSome = true) :
    ∃ g2, setNodeFields g nid fields = Except.ok g2 := by
  unfold setNodeFields
  cases hg : g nid with
  | none => rw [hg] at h; cases h
  | some node => exact ⟨_, rfl⟩

theorem foldl_setField_not_mem (fields : List (String × JVal))
    (inp : String → Option JVal) (k : String)
    (hk : k ∉ fields.map Prod.fst) :
    (fields.foldl (fun m kv => setField m kv.1 kv.2) inp) k = inp k := by
  induction fields generalizing inp with
  | nil => rfl
  | cons kv rest ih =>
      simp only [List.map_cons, List.mem_cons] at hk
      push_neg at hk
      simp only [List.foldl_cons]
      rw [ih _ hk.2]
      simp [setField, hk.1]

theorem setNodeFields_field_not_mem {g : Graph} {nid : String}
    {fields : List (String × JVal)} {g2 : Graph}
    (h : setNodeFields g nid fields = Except.ok g2)
    (k : String) (hk : k ∉ fields.map Prod.fst) (m : String) :
    graphField g2 m k = graphField g m k := by
  obtain ⟨node, hnode, rfl⟩ := setNodeFields_inv h
  by_cases hm : m = nid
  · subst hm
    simp only [graphField, hnode, if_pos rfl, Option.some_bind]
    exact foldl_setField_not_mem fields node.inputs k hk
  · simp [graphField, hm]

theorem exceptThen_ok {r : Except PyErr Graph} {f : Graph → Except PyErr Graph}
    {gr : Graph} (h : exceptThen r f = Except.ok gr) :
    ∃ gm, r = Except.ok gm ∧ f gm = Except.ok gr := by
  cases r with
  | error e => cases h
  | ok g => exact ⟨g, rfl, h⟩

theorem image_input_stage_field_preserved {opts : PopulateOpts} {v : String}
    {g g2 : Graph} (h : image_input_stage opts v g = Except.ok g2)
    {k : String} (hk : k ≠ "image") (m : String) :
    graphField g2 m k = graphField g m k := by
  unfold image_input_stage at h
  split at h
  · exact setNodeFields_field_not_mem h k (by simpa using hk) m
  · cases h; rfl

theorem image_input_stage_node_preserved {opts : PopulateOpts} {v : String}
    {g g2 : Graph} (h : image_input_stage opts v g = Except.ok g2)
    {m : String} (hm : m ≠ toString opts.image_input_id) : g2 m = g m := by
  unfold image_input_stage at h
  split at h
  · exact setNodeFields_ne h hm
  · cases h; rfl

theorem mask_input_stage_field_preserved {opts : PopulateOpts} {v : String}
    {g g2 : Graph} (h : mask_input_stage opts v g = Except.ok g2)
    {k : String} (hk : k ≠ "image") (m : String) :
    graphField g2 m k = graphField g m k := by
  unfold mask_input_stage at h
  split at h
  · split at h
    · exact setNodeFields_field_not_mem h k (by simpa using hk) m
    · cases h; rfl
  · cases h; rfl

theorem mask_input_stage_node_preserved {opts : PopulateOpts} {v : String}
    {g g2 : Graph} (h : mask_input_stage opts v g = Except.ok g2)
    {m : String} (hm : m ≠ toString opts.mask_input_id) : g2 m = g m := by
  unfold mask_input_stage at h
  split at h
  · split at h
    · exact setNodeFields_ne h hm
    · cases h; rfl
  · cases h; rfl

theorem pose_input_stage_field_preserved {opts : PopulateOpts} {v : String}
    {g g2 : Graph} (h : pose_input_stage opts v g = Except.ok g2)
    {k : String} (hk : k ≠ "image") (m : String) :
    graphField g2 m k = graphField g m k := by
  unfold pose_input_stage at h
  split at h
  · split at h
    · exact setNodeFields_field_not_mem h k (by simpa using hk) m
    · cases h; rfl
  · cases h; rfl

theorem pose_input_stage_node_preserved {opts : PopulateOpts} {v : String}
    {g g2 : Graph} (h : pose_input_stage opts v g = Except.ok g2)
    {m : String} (hm : m ≠ toString opts.pose_input_id) : g2 m = g m := by
  unfold pose_input_stage at h
  split at h
  · split at h
    · exact setNodeFields_ne h hm
    · cases h; rfl
  · cases h; rfl

theorem populate_input_images_field_preserved {opts : PopulateOpts}
    {a b c : String} {g3 gr : Graph}
    (h : populate_input_images opts a b c g3 = Except.ok gr)
    {k : String} (hk : k ≠ "image") (m : String) :
    graphField gr m k = graphField g3 m k := by
  unfold populate_input_images at h
  split at h
  · obtain ⟨g4, hi, h⟩ := exceptThen_ok h
    obtain ⟨g5, hmk, h⟩ := exceptThen_ok h
    calc graphField gr m k
        = graphField g5 m k := pose_input_stage_field_preserved h hk m
      _ = graphField g4 m k := mask_input_stage_field_preserved hmk hk m
      _ = graphField g3 m k := image_input_stage_field_preserved hi hk m
  · cases h; rfl

theorem populate_input_images_node_preserved {opts : PopulateOpts}
    {a b c : String} {g3 gr : Graph}
    (h : populate_input_images opts a b c g3 = Except.ok gr)
    {m : String} (hm1 : m ≠ toString opts.image_input_id)
    (hm2 : m ≠ toString opts.mask_input_id)
    (hm3 : m ≠ toString opts.pose_input_id) :
    gr m = g3 m := by
  unfold populate_input_images at h
  split at h
  · obtain ⟨g4, hi, h⟩ := exceptThen_ok h
    obtain ⟨g5, hmk, h⟩ := exceptThen_ok h
    calc gr m = g5 m := pose_input_stage_node_preserved h hm3
      _ = g4 m := mask_input_stage_node_preserved hmk hm2
      _ = g3 m := image_input_stage_node_preserved hi hm1
  · cases h; rfl

theorem populate_input_images_skipped (opts : PopulateOpts) (a b c : String)
    (g3 : Graph)
    (himg : opts.image_input_id ≤ 0 ∨ (g3 (toString opts.image_input_id)).isSome = false)
    (hmask : opts.mask_input_id ≤ 0 ∨ (g3 (toString opts.mask_input_id)).isSome = false)
    (hpose : opts.pose_input_id ≤ 0 ∨ (g3 (toString opts.pose_input_id)).isSome = false) :
    populate_input_images opts a b c g3 = Except.ok g3 := by
  have h1 : ¬(0 < opts.image_input_id ∧
      (g3 (toString opts.image_input_id)).isSome = true) := by
    rcases himg with hcase | hcase
    · rintro ⟨hlt, -⟩; omega
    · rintro ⟨-, hsome⟩; rw [hcase] at hsome; cases hsome
  have h2 : ¬(0 < opts.mask_input_id ∧
      (g3 (toString opts.mask_input_id)).isSome = true) := by
    rcases hmask with hcase | hcase
    · rintro ⟨hlt, -⟩; omega
    · rintro ⟨-, hsome⟩; rw [hcase] at hsome; cases hsome
  have h3 : ¬(0 < opts.pose_input_id ∧
      (g3 (toString opts.pose_input_id)).isSome = true) := by
    rcases hpose with hcase | hcase
    · rintro ⟨hlt, -⟩; omega
    · rintro ⟨-, hsome⟩; rw [hcase] at hsome; cases hsome
  unfold populate_input_images
  split
  · rw [image_input_stage, if_neg h1]
    show exceptThen (mask_input_stage opts b g3)
        (fun g5 => pose_input_stage opts c g5) = Except.ok g3
    rw [mask_input_stage, if_neg h2, ite_self]
    show pose_input_stage opts c g3 = Except.ok g3
    rw [pose_input_stage, if_neg h3, ite_self]
  · rfl

theorem sampler_fields_lookup (inp : String → Option JVal) (c d s z : JVal) (k : String) :
    ([("cfg", c), ("denoise", d), ("steps", s), ("seed", z)].foldl
        (fun m kv => setField m kv.1 kv.2) inp) k
      = if k = "seed" then some z
        else if k = "steps" then some s
        else if k = "denoise" then some d
        else if k = "cfg" then some c
        else inp k := by
  simp only [List.foldl_cons, List.foldl_nil, setField]

theorem exceptThen_ok_left (g : Graph) (f : Graph → Except PyErr Graph) :
    exceptThen (Except.ok g) f = f g := rfl

/-- C1 counterexample: the claim asserts that a slot configured with
node-ID 0 is never mutated even when a node with string key zero is in
the graph. With the positive slot configured to 0 and zeroKeyGraph
containing the node keyed zero, populate_workflow does mutate that
node: its text field, absent beforehand, afterwards holds prompt text
(the negative slot, also configured to 0, writes that same node last).
-/
theorem c1_zero_id_node_mutated :
    nodeField (populate_workflow c1opts 0 "" "" "" zeroKeyGraph) "0" "text"
        = some (JVal.str "NEG")
      ∧ graphField zeroKeyGraph "0" "text" = none := by
  constructor
  · decide
  · decide

/-- C1 (amended): the skip guard applies only to the imageInput,
maskInput and poseInput slots. When the three unguarded slots resolve
to nodes present in the graph and each optional input slot has a
non-positive configured id or an id absent from the graph, then
populate_workflow succeeds and every node other than the three
unguarded slot targets is left exactly as it was, so the guarded slot
mutations are skipped without error. -/
theorem populate_workflow_optional_slots_skipped
    (opts : PopulateOpts) (g : Graph) (randDraw : ℕ) (a b c : String)
    (hpos : (g (toString opts.positive_id)).isSome = true)
    (hneg : (g (toString opts.negative_id)).isSome = true)
    (hks : (g (toString opts.ksampler_id)).isSome = true)
    (himg : opts.image_input_id ≤ 0 ∨ (g (toString opts.image_input_id)).isSome = false)
    (hmask : opts.mask_input_id ≤ 0 ∨ (g (toString opts.mask_input_id)).isSome = false)
    (hpose : opts.pose_input_id ≤ 0 ∨ (g (toString opts.pose_input_id)).isSome = false) :
    isOkb (populate_workflow opts randDraw a b c g) = true
    ∧ ∀ nid, nid ≠ toString opts.positive_id → nid ≠ toString opts.negative_id →
        nid ≠ toString opts.ksampler_id →
        resNode (populate_workflow opts randDraw a b c g) nid = g nid := by
  obtain ⟨g1, e1⟩ := setNodeFields_ok_of_isSome g (toString opts.positive_id)
    [("text", JVal.str opts.positive_prompt),
     ("text_l", JVal.str opts.positive_prompt),
     ("text_g", JVal.str opts.positive_prompt)] hpos
  have t1 : ∀ m, (g1 m).isSome = (g m).isSome := setNodeFields_isSome e1
  obtain ⟨g2, e2⟩ := setNodeFields_ok_of_isSome g1 (toString opts.negative_id)
    [("text", JVal.str opts.negative_prompt),
     ("text_l", JVal.str opts.negative_prompt),
     ("text_g", JVal.str opts.negative_prompt)] (by rw [t1]; exact hneg)
  have t2 : ∀ m, (g2 m).isSome = (g m).isSome :=
    fun m => (setNodeFields_isSome e2 m).trans (t1 m)
  obtain ⟨g3, e3⟩ := setNodeFields_ok_of_isSome g2 (toString opts.ksampler_id)
    [("cfg", JVal.num opts.cfg_scale),
     ("denoise", JVal.num opts.denoise),
     ("steps", JVal.num (opts.steps : ℚ)),
     ("seed", JVal.num ((sampledSeed opts.seed randDraw : ℤ) : ℚ))] (by rw [t2]; exact hks)
  have t3 : ∀ m, (g3 m).isSome = (g m).isSome :=
    fun m => (setNodeFields_isSome e3 m).trans (t2 m)
  have hpii : populate_input_images opts a b c g3 = Except.ok g3 := by
    apply populate_input_images_skipped
    · rcases himg with hc | hc
      · exact Or.inl hc
      · exact Or.inr (by rw [t3]; exact hc)
    · rcases hmask with hc | hc
      · exact Or.inl hc
      · exact Or.inr (by rw [t3]; exact hc)
    · rcases hpose with hc | hc
      · exact Or.inl hc
      · exact Or.inr (by rw [t3]; exact hc)
  have hw : populate_workflow opts randDraw a b c g = Except.ok g3 := by
    simp only [populate_workflow, e1, exceptThen_ok_left, e2, e3, hpii]
  rw [hw]
  refine ⟨rfl, fun nid h1 h2 h3 => ?_⟩
  show g3 nid = g nid
  rw [setNodeFields_ne e3 h3, setNodeFields_ne e2 h2, setNodeFields_ne e1 h1]

/-- C1 witness: masked variant, prompt nodes 16 and 19, sampler node
36, optional input slots configured to 0, and a node keyed zero in the
graph; populate_workflow succeeds and the node keyed zero is
untouched. -/
theorem populate_workflow_optional_slots_skipped_witness :
    isOkb (populate_workflow w1opts 0 "" "" "" maskedGraph) = true
    ∧ resNode (populate_workflow w1opts 0 "" "" "" maskedGraph) "0" = maskedGraph "0" := by
  have h := populate_workflow_optional_slots_skipped w1opts maskedGraph 0 "" "" ""
    (by decide) (by decide) (by decide)
    (Or.inl (by decide)) (Or.inl (by decide)) (Or.inl (by decide))
  exact ⟨h.1, h.2 "0" (by decide) (by decide) (by decide)⟩

/-- C3 counterexample: the claim asserts the substituted seed lies in
the half open range from 0 to one billion exclusive. random.randint is
inclusive at both endpoints, so the draw can be exactly one billion:
with caller seed 0 and generator draw 1000000000 the seed written into
the sampler node is 1000000000, which is not below 1000000000. -/
theorem c3_seed_upper_bound_reached :
    nodeField (populate_workflow c3opts 1000000000 "" "" "" seedGraph) "3" "seed"
        = some (JVal.num 1000000000)
      ∧ ¬((1000000000 : ℤ) < 1000000000) := by
  constructor
  · decide
  · decide

/-- C3 (amended): a strictly positive caller seed is written verbatim;
a non-positive caller seed is replaced by a randint draw from the
closed interval from 0 to 1000000000 inclusive, every value of which
is attainable. The written sampler seed always equals the sampledSeed
expression for the iteration draw, and populate_workflow is invoked
afresh on each batch iteration with a fresh draw. -/
theorem populate_workflow_seed_written
    (opts : PopulateOpts) (g : Graph) (randDraw : ℕ) (a b c : String)
    (hok : ∃ gr, populate_workflow opts randDraw a b c g = Except.ok gr) :
    nodeField (populate_workflow opts randDraw a b c g)
        (toString opts.ksampler_id) "seed"
      = some (JVal.num ((sampledSeed opts.seed randDraw : ℤ) : ℚ))
    ∧ (0 < opts.seed → sampledSeed opts.seed randDraw = opts.seed)
    ∧ (opts.seed ≤ 0 →
        0 ≤ sampledSeed opts.seed randDraw ∧ sampledSeed opts.seed randDraw ≤ 1000000000)
    ∧ (∀ v : ℤ, 0 ≤ v → v ≤ 1000000000 → ∃ r, randint 0 1000000000 r = v) := by
  refine ⟨?_, ?_, ?_, ?_⟩
  · obtain ⟨gr, hgr⟩ := hok
    have hgr2 := hgr
    unfold populate_workflow at hgr2
    obtain ⟨g1, e1, hgr2⟩ := exceptThen_ok hgr2
    obtain ⟨g2, e2, hgr2⟩ := exceptThen_ok hgr2
    obtain ⟨g3, e3, hgr2⟩ := exceptThen_ok hgr2
    rw [hgr]
    show graphField gr (toString opts.ksampler_id) "seed" = _
    rw [populate_input_images_field_preserved hgr2 (by decide) (toString opts.ksampler_id)]
    obtain ⟨node, hnode, hg3⟩ := setNodeFields_inv e3
    rw [setNodeFields_self_field e3 hnode, sampler_fields_lookup]
    simp
  · intro h
    simp only [sampledSeed, if_pos h]
  · intro h
    simp only [sampledSeed, randint, if_neg (by omega : ¬ opts.seed > 0)]
    omega
  · intro v h0 h1
    refine ⟨v.toNat, ?_⟩
    unfold randint
    rw [Int.toNat_of_nonneg h0]
    omega

/-- C3 witness: caller seed 42 with prompt nodes 16 and 19 and sampler
node 3: the sampler seed written is exactly 42. -/
theorem populate_workflow_seed_written_witness :
    nodeField (populate_workflow c3wopts 7 "" "" "" seedGraph)
        (toString c3wopts.ksampler_id) "seed"
      = some (JVal.num ((sampledSeed c3wopts.seed 7 : ℤ) : ℚ))
    ∧ sampledSeed c3wopts.seed 7 = c3wopts.seed := by
  have h := populate_workflow_seed_written c3wopts seedGraph 7 "" "" "" ⟨_, rfl⟩
  exact ⟨h.1, h.2.1 (by decide)⟩

/-- C7: when populate_workflow succeeds and the sampler slot id
differs from the other five slot ids, the sampler node ends with
exactly the fields cfg, denoise, steps and seed updated, and every
other field of that node keeps its prior value (merge update, not
replace). -/
theorem populate_workflow_sampler_frame
    (opts : PopulateOpts) (g : Graph) (randDraw : ℕ) (a b c : String)
    (hok : ∃ gr, populate_workflow opts randDraw a b c g = Except.ok gr)
    (hp : toString opts.ksampler_id ≠ toString opts.positive_id)
    (hn : toString opts.ksampler_id ≠ toString opts.negative_id)
    (hi : toString opts.ksampler_id ≠ toString opts.image_input_id)
    (hm : toString opts.ksampler_id ≠ toString opts.mask_input_id)
    (hq : toString opts.ksampler_id ≠ toString opts.pose_input_id) :
    ∀ k, nodeField (populate_workflow opts randDraw a b c g)
        (toString opts.ksampler_id) k
      = if k = "seed" then some (JVal.num ((sampledSeed opts.seed randDraw : ℤ) : ℚ))
        else if k = "steps" then some (JVal.num (opts.steps : ℚ))
        else if k = "denoise" then some (JVal.num opts.denoise)
        else if k = "cfg" then some (JVal.num opts.cfg_scale)
        else graphField g (toString opts.ksampler_id) k := by
  obtain ⟨gr, hgr⟩ := hok
  have hgr2 := hgr
  unfold populate_workflow at hgr2
  obtain ⟨g1, e1, hgr2⟩ := exceptThen_ok hgr2
  obtain ⟨g2, e2, hgr2⟩ := exceptThen_ok hgr2
  obtain ⟨g3, e3, hgr2⟩ := exceptThen_ok hgr2
  intro k
  rw [hgr]
  show graphField gr (toString opts.ksampler_id) k = _
  have hnode : gr (toString opts.ksampler_id) = g3 (toString opts.ksampler_id) :=
    populate_input_images_node_preserved hgr2 hi hm hq
  obtain ⟨node, hks, hg3⟩ := setNodeFields_inv e3
  have hg2 : g2 (toString opts.ksampler_id) = g (toString opts.ksampler_id) := by
    rw [setNodeFields_ne e2 hn, setNodeFields_ne e1 hp]
  have hbase : graphField g (toString opts.ksampler_id) k = node.inputs k := by
    rw [graphField, ← hg2, hks]
    simp
  have hgr3 : graphField gr (toString opts.ksampler_id) k
      = graphField g3 (toString opts.ksampler_id) k := by
    rw [graphField, graphField, hnode]
  rw [hgr3, setNodeFields_self_field e3 hks, sampler_fields_lookup, hbase]

/-- C7 witness: distinct slot ids, sampler node 3 with a pre-existing
sampler_name field; after population that field still holds its prior
value. -/
theorem populate_workflow_sampler_frame_witness :
    nodeField (populate_workflow c7opts 0 "" "" "" samplerGraph)
        (toString c7opts.ksampler_id) "sampler_name"
      = some (JVal.str "dpmpp_2m") := by
  have h := populate_workflow_sampler_frame c7opts samplerGraph 0 "" "" "" ⟨_, rfl⟩
    (by decide) (by decide) (by decide) (by decide) (by decide)
  rw [h "sampler_name"]
  decide

theorem floor_half_sub (s w : ℕ) :
    ⌊(((s : ℚ) - (w : ℚ)) / 2)⌋ = ((s : ℤ) - (w : ℤ)) / 2 := by
  have e : (((s : ℚ) - (w : ℚ)) / 2)
      = (((s : ℤ) - (w : ℤ) : ℤ) : ℚ) / ((2 : ℕ) : ℚ) := by push_cast; ring
  rw [e, Rat.floor_intCast_div_natCast]
  norm_num

theorem floor_s_sub_half (s w : ℕ) :
    ⌊((s : ℚ) - ((s : ℚ) - (w : ℚ)) / 2)⌋ = ((s : ℤ) + (w : ℤ)) / 2 := by
  have e : ((s : ℚ) - ((s : ℚ) - (w : ℚ)) / 2)
      = (((s : ℤ) + (w : ℤ) : ℤ) : ℚ) / ((2 : ℕ) : ℚ) := by push_cast; ring
  rw [e, Rat.floor_intCast_div_natCast]
  norm_num

/-- C2: padding a w by h image gives the square canvas of side
max(w, h) with the image pasted at integer offsets
floor((side - w)/2) and floor((side - h)/2); cropping a result of that
same side (so result ratio 1.0) with _process_result_image recovers
the dimensions (w, h) exactly, which is within the 1 pixel truncation
tolerance the claim allows at odd differences. -/
theorem crop_pad_roundtrip (w h : ℕ) (hw : 0 < w) (_hh : 0 < h) :
    padded_size (process_image_main w h) = (max w h, max w h)
    ∧ paste_offset (process_image_main w h)
        = (((max w h : ℤ) - (w : ℤ)) / 2, ((max w h : ℤ) - (h : ℤ)) / 2)
    ∧ cropped_size (crop_rect (process_image_main w h)
          (padded_size (process_image_main w h)).1)
        = ((w : ℤ), (h : ℤ)) := by
  have hsw : w ≤ max w h := Nat.le_max_left w h
  have hsh : h ≤ max w h := Nat.le_max_right w h
  have hne : ((max w h : ℕ) : ℚ) ≠ 0 := by
    have hpos : (0 : ℕ) < max w h := lt_of_lt_of_le hw hsw
    exact_mod_cast hpos.ne'
  have hratio : ((max w h : ℕ) : ℚ) / ((max w h : ℕ) : ℚ) = 1 := div_self hne
  refine ⟨rfl, ?_, ?_⟩
  · unfold paste_offset process_image_main
    simp only
    rw [floor_half_sub, floor_half_sub]
    simp [Nat.cast_max]
  · unfold cropped_size crop_rect padded_size process_image_main
    simp only
    rw [hratio]
    simp only [mul_one]
    rw [floor_half_sub, floor_half_sub, floor_s_sub_half, floor_s_sub_half]
    have hw2 : (w : ℤ) ≤ ((max w h : ℕ) : ℤ) := by exact_mod_cast hsw
    have hh2 : (h : ℤ) ≤ ((max w h : ℕ) : ℤ) := by exact_mod_cast hsh
    rw [Prod.mk.injEq]
    constructor
    · omega
    · omega

/-- C2 witness: a 3 by 5 source pads to a 5 by 5 canvas pasted at
(1, 0) and crops back to exactly 3 by 5. -/
theorem crop_pad_roundtrip_witness :
    padded_size (process_image_main 3 5) = (5, 5)
    ∧ paste_offset (process_image_main 3 5) = (1, 0)
    ∧ cropped_size (crop_rect (process_image_main 3 5)
          (padded_size (process_image_main 3 5)).1)
        = (3, 5) := by
  have h := crop_pad_roundtrip 3 5 (by decide) (by decide)
  refine ⟨h.1, ?_, h.2.2⟩
  rw [h.2.1]
  decide

theorem retry_go_step (f : ℕ → Option String) (b : ℚ) (r a : ℕ) (s : List ℚ)
    (t : ℕ) (hf : f a = none) (hr : 0 < r) :
    retry_go f b (r + 1) a s t
      = retry_go f b r (a + 1) (s ++ [b * 2 ^ a]) (t + 1) := by
  simp [retry_go, hf, hr]

theorem retry_go_last (f : ℕ → Option String) (b : ℚ) (a : ℕ) (s : List ℚ)
    (t : ℕ) (hf : f a = none) :
    retry_go f b (0 + 1) a s t = ⟨Except.error "TimeoutError", s, t + 1⟩ := by
  simp [retry_go, hf]

/-- C5 counterexample: the claim names the sleep sequence 0.5, 1, 2,
4, 8 seconds. On a request that fails every attempt, retry_request
performs only four sleeps, 0.5, 1, 2 and 4 seconds: after the fifth
failed attempt it raises immediately instead of sleeping 8 seconds. -/
theorem c5_sleep_sequence_has_four_entries :
    (retry_request (fun _ => none)).sleeps = [1 / 2, 1, 2, 4]
    ∧ (retry_request (fun _ => none)).sleeps ≠ [1 / 2, 1, 2, 4, 8] := by
  have hlist : retry_request (fun _ => none)
      = ⟨Except.error "TimeoutError", [1 / 2, 1, 2, 4], 5⟩ := by
    unfold retry_request
    rw [retry_go_step (fun _ => none) (1 / 2) 4 0 [] 0 rfl (by omega)]
    rw [retry_go_step (fun _ => none) (1 / 2) 3 1 ([] ++ [1 / 2 * 2 ^ 0]) 1 rfl (by omega)]
    rw [retry_go_step (fun _ => none) (1 / 2) 2 2
        ([] ++ [1 / 2 * 2 ^ 0] ++ [1 / 2 * 2 ^ 1]) 2 rfl (by omega)]
    rw [retry_go_step (fun _ => none) (1 / 2) 1 3
        ([] ++ [1 / 2 * 2 ^ 0] ++ [1 / 2 * 2 ^ 1] ++ [1 / 2 * 2 ^ 2]) 3 rfl (by omega)]
    rw [retry_go_last (fun _ => none) (1 / 2) 4
        ([] ++ [1 / 2 * 2 ^ 0] ++ [1 / 2 * 2 ^ 1] ++ [1 / 2 * 2 ^ 2] ++ [1 / 2 * 2 ^ 3]) 4 rfl]
    norm_num
  rw [hlist]
  refine ⟨rfl, fun hEq => ?_⟩
  have hlen := congrArg List.length hEq
  simp at hlen

/-- C5 (amended): on a request whose every attempt fails transiently,
retry_request makes exactly 5 attempts, sleeps 0.5, 1, 2 and 4 seconds
between consecutive attempts, and raises a TimeoutError after the
fifth failure without a further sleep. -/
theorem retry_request_exhausted (attemptResult : ℕ → Option String)
    (hfail : ∀ n, n < 5 → attemptResult n = none) :
    retry_request attemptResult
      = ⟨Except.error "TimeoutError", [1 / 2, 1, 2, 4], 5⟩ := by
  have h0 := hfail 0 (by omega)
  have h1 := hfail 1 (by omega)
  have h2 := hfail 2 (by omega)
  have h3 := hfail 3 (by omega)
  have h4 := hfail 4 (by omega)
  unfold retry_request
  rw [retry_go_step attemptResult (1 / 2) 4 0 [] 0 h0 (by omega)]
  rw [retry_go_step attemptResult (1 / 2) 3 1 ([] ++ [1 / 2 * 2 ^ 0]) 1 h1 (by omega)]
  rw [retry_go_step attemptResult (1 / 2) 2 2
      ([] ++ [1 / 2 * 2 ^ 0] ++ [1 / 2 * 2 ^ 1]) 2 h2 (by omega)]
  rw [retry_go_step attemptResult (1 / 2) 1 3
      ([] ++ [1 / 2 * 2 ^ 0] ++ [1 / 2 * 2 ^ 1] ++ [1 / 2 * 2 ^ 2]) 3 h3 (by omega)]
  rw [retry_go_last attemptResult (1 / 2) 4
      ([] ++ [1 / 2 * 2 ^ 0] ++ [1 / 2 * 2 ^ 1] ++ [1 / 2 * 2 ^ 2] ++ [1 / 2 * 2 ^ 3]) 4 h4]
  norm_num

/-- C5 witness: the always failing attempt source instantiates the
exhaustion theorem. -/
theorem retry_request_exhausted_witness :
    retry_request (fun _ => none)
      = ⟨Except.error "TimeoutError", [1 / 2, 1, 2, 4], 5⟩ :=
  retry_request_exhausted (fun _ => none) (fun _ _ => rfl)

/-- C8: with a history source lacking the handle key on its first two
calls and containing it from the third call on, the poll section of
generate_result_image terminates having called get_history exactly 3
times, for any loop fuel of at least 3. -/
theorem generate_poll_exactly_three (fuel : ℕ) (hfuel : 3 ≤ fuel) :
    generate_poll_calls c8_source fuel = some 3 := by
  obtain ⟨k, rfl⟩ : ∃ k, fuel = k + 3 := ⟨fuel - 3, by omega⟩
  show poll_loop c8_source (k + 2 + 1) 1 = some 3
  rw [poll_loop]
  norm_num [c8_source]
  show poll_loop c8_source (k + 1 + 1) 2 = some 3
  rw [poll_loop]
  norm_num [c8_source]
  show poll_loop c8_source (k + 1) 3 = some 3
  rw [poll_loop]
  norm_num [c8_source]

/-- C8 witness: the theorem at the smallest sufficient fuel. -/
theorem generate_poll_exactly_three_witness :
    generate_poll_calls c8_source 3 = some 3 :=
  generate_poll_exactly_three 3 (by omega)

/-- C9: insert_result_image places batch index i at the base position
offset by (dimW * (i mod c) * (1 + g/100), dimH * floor(i/c) *
(1 + g/100)); in particular with 4 columns and gap 0, index 5 lands
one cell right and one cell down of the base position. -/
theorem insert_position_grid (x y dw dh : ℚ) (i c : ℕ) (g : ℚ) (_hc : 0 < c) :
    insert_position (x, y) (dw, dh) i c g
      = (x + dw * ((i % c : ℕ) : ℚ) * (1 + g / 100),
         y + dh * ((i / c : ℕ) : ℚ) * (1 + g / 100))
    ∧ insert_position (x, y) (dw, dh) 5 4 0 = (x + dw, y + dh) := by
  have key : ∀ (j d : ℕ) (gp : ℚ), insert_position (x, y) (dw, dh) j d gp
      = (x + dw * ((j % d : ℕ) : ℚ) * (1 + gp / 100),
         y + dh * ((j / d : ℕ) : ℚ) * (1 + gp / 100)) := by
    intro j d gp
    unfold insert_position
    simp only
    rw [Rat.floor_natCast_div_natCast, ← Int.natCast_div, Int.cast_natCast]
  refine ⟨key i c g, ?_⟩
  rw [key 5 4 0]
  norm_num

/-- C9 witness: concrete base position and dimensions at index 5 with
4 columns and zero gap. -/
theorem insert_position_grid_witness :
    insert_position (0, 0) (10, 20) 5 4 0 = (0 + 10, 0 + 20) :=
  (insert_position_grid 0 0 10 20 5 4 0 (by decide)).2

/-- C4 counterexample: the body the orchestrator submits for a graph
has no client_id key at all, so it is not the serialization of the
claimed prompt plus client-id pair; it also differs from the body the
ComfyUIWebSocketAPI method would build. -/
theorem c4_orchestrator_body_lacks_client_id :
    List.lookup "client_id" (orchestrator_submission_body (JVal.str "G")) = none
    ∧ orchestrator_submission_body (JVal.str "G")
        ≠ api_queue_prompt_body (JVal.str "G") "client-uuid" := by
  constructor
  · decide
  · decide

/-- C4 (amended): the JSON body sent by the orchestrator through
ComfyUIExtension.queue_prompt serializes only the prompt key; the
session client id appears only in the body built by the unused
ComfyUIWebSocketAPI.queue_prompt. -/
theorem orchestrator_submission_body_only_prompt (workflow_json : JVal)
    (client_id : String) :
    List.lookup "prompt" (orchestrator_submission_body workflow_json)
        = some workflow_json
    ∧ List.lookup "client_id" (orchestrator_submission_body workflow_json) = none
    ∧ List.lookup "prompt" (api_queue_prompt_body workflow_json client_id)
        = some workflow_json
    ∧ List.lookup "client_id" (api_queue_prompt_body workflow_json client_id)
        = some (JVal.str client_id) := by
  exact ⟨rfl, rfl, rfl, rfl⟩

/-- C6: on a 200 upload response, upload_file returns subfolder/name
when the subfolder field is present and nonempty, plain name when the
subfolder is absent or empty, and raises ValueError when the name
field is missing, never returning a path in that case. -/
theorem upload_file_response_paths (resp : UploadResp)
    (h200 : resp.status_code = 200) :
    (∀ n sf, resp.name = some n → resp.subfolder = some sf → sf ≠ "" →
        upload_file resp = Except.ok (some (sf ++ "/" ++ n)))
    ∧ (∀ n, resp.name = some n →
        (resp.subfolder = none ∨ resp.subfolder = some "") →
        upload_file resp = Except.ok (some n))
    ∧ (resp.name = none →
        upload_file resp
          = Except.error (PyErr.valueError "Server response is missing the file name.")) := by
  have hlt : ¬ 400 ≤ resp.status_code := by omega
  refine ⟨?_, ?_, ?_⟩
  · intro n sf hn hsf hne
    unfold upload_file
    rw [if_neg hlt, if_pos h200, hn, hsf]
    simp [hne]
  · intro n hn hsub
    unfold upload_file
    rw [if_neg hlt, if_pos h200, hn]
    rcases hsub with hs | hs
    · rw [hs]
    · rw [hs]
      simp
  · intro hn
    unfold upload_file
    rw [if_neg hlt, if_pos h200, hn]

/-- C6 witness: a 200 response with name and nonempty subfolder yields
the joined path, and a 200 response without a name raises. -/
theorem upload_file_response_paths_witness :
    upload_file ⟨200, some "img.png", some "sub"⟩
        = Except.ok (some ("sub" ++ "/" ++ "img.png"))
    ∧ upload_file ⟨200, none, none⟩
        = Except.error (PyErr.valueError "Server response is missing the file name.") := by
  constructor
  · exact (upload_file_response_paths ⟨200, some "img.png", some "sub"⟩ rfl).1
      "img.png" "sub" rfl rfl (by decide)
  · exact (upload_file_response_paths ⟨200, none, none⟩ rfl).2.2 rfl

/-- C10: add_arguments never defines custom_workflow_json_path, yet
both get_workflow_path and get_embedded_workflow read that attribute
for the custom2 variant, so selecting custom2 always reaches an
AttributeError; every other variant returns its own configured
workflow path option. -/
theorem custom2_select_reads_missing_attribute (vals : String → Option String)
    (attrs : ClassAttrs) :
    "custom_workflow_json_path" ∉ definedOptionNames
    ∧ get_workflow_path (some "custom2") vals
        = Except.error "AttributeError: custom_workflow_json_path"
    ∧ get_embedded_workflow attrs (some "custom2") vals
        = Except.error "AttributeError: custom_workflow_json_path"
    ∧ get_workflow_path (some "basic") vals
        = Except.ok (vals "basic_workflow_json_path")
    ∧ get_workflow_path none vals = Except.ok (vals "basic_workflow_json_path")
    ∧ get_workflow_path (some "img2img") vals
        = Except.ok (vals "img2img_workflow_json_path")
    ∧ get_workflow_path (some "masked") vals
        = Except.ok (vals "masked_workflow_json_path")
    ∧ get_workflow_path (some "pose") vals
        = Except.ok (vals "pose_workflow_json_path")
    ∧ get_workflow_path (some "custom1") vals
        = Except.ok (vals "custom1_workflow_json_path")
    ∧ get_workflow_path (some "custom3") vals
        = Except.ok (vals "custom3_workflow_json_path")
    ∧ get_workflow_path (some "custom4") vals
        = Except.ok (vals "custom4_workflow_json_path") := by
  refine ⟨by decide, rfl, rfl, rfl, rfl, rfl, rfl, rfl, rfl, rfl, rfl⟩

end ComfyUI
